import Mathlib

/-!
Verification of the Reolink ONVIF watcher recording controller.

Shallow embedding of `video_recorder.py` (class `VideoRecorder`) and
`main.py` (classes `ReolinkWatcher`, `MultiCameraManager`).

Modelling conventions:
* time is a `Nat` count of milliseconds; `datetime.now().strftime` with the
  second-resolution pattern used by the source is modelled as the decimal
  rendering (`Nat.repr`) of the second count `tMillis / 1000` — this keeps
  exactly the collision structure of the source's timestamps (two instants
  yield the same stamp string iff they fall in the same second);
* an `asyncio.Task` holding a pending delayed stop is a `TimerRec`; the list
  `timers` accumulates every timer task ever created by the controller, so
  that "two stop timers concurrently pending" is expressible; a task is
  `done` (in the `asyncio` sense checked by the source) once it has either
  fired or been cancelled;
* a `subprocess.Popen` handle is a `Nat` process id wrapped in `Option`;
* the filesystem state of the output file at the final check of
  `stop_recording` is an `Option Nat`: `none` when the file does not exist,
  `some n` when it exists with size `n` bytes;
* effects (spawning a capture process, writing a snapshot file, enqueuing a
  background job) are returned explicitly alongside the new state.
-/

namespace ReolinkModel

/-- A delayed-stop timer task (`asyncio.create_task(self._delayed_stop())`,
video_recorder.py line 374). `armTime` is the instant (ms) the task was
created; `cancelled`/`fired` record whether it was cancelled or ran. -/
structure TimerRec where
  armTime : Nat
  cancelled : Bool
  fired : Bool
  deriving Repr, DecidableEq

/-- An `asyncio` task is done when it has fired or been cancelled
(the source's `task.done()` checks). -/
def timerDone (t : TimerRec) : Bool :=
  t.cancelled || t.fired

/-- Number of pending (not done) timer tasks among all timer tasks ever
created by one controller. -/
def pendingCount (ts : List TimerRec) : Nat :=
  ts.countP (fun t => !timerDone t)

/-- Instant (ms) at which a pending timer invokes `stop_recording`:
`_delayed_stop` (video_recorder.py lines 376-387) sleeps exactly
`post_detection_duration` seconds after being armed, then stops. -/
def stopInvocationTime (durationMillis : Nat) (t : TimerRec) : Nat :=
  t.armTime + durationMillis

/-- Second-resolution timestamp of an instant given in milliseconds, as
produced by `datetime.now().strftime` with the source's second-granular
pattern (video_recorder.py line 104, main.py line 140). -/
def secondsStamp (tMillis : Nat) : Nat :=
  tMillis / 1000

/-- Clip filename, video_recorder.py line 106:
`f"person_detection_{timestamp}_ch{self.channel}.mp4"`. -/
def clipFilename (channel : Nat) (tMillis : Nat) : String :=
  "person_detection_" ++ Nat.repr (secondsStamp tMillis) ++ "_ch"
    ++ Nat.repr channel ++ ".mp4"

/-- Snapshot filename, main.py line 141:
`f"person_detection_{timestamp}.jpg"`. -/
def snapshotFilename (tMillis : Nat) : String :=
  "person_detection_" ++ Nat.repr (secondsStamp tMillis) ++ ".jpg"

/-- Mutable state of one `VideoRecorder` (video_recorder.py lines 38-49),
together with the immutable per-camera configuration it was constructed
with and the log of all timer tasks it ever created. A monitor task handle
is tracked as a `Bool` (whether `_monitor_task` holds a task). -/
structure RecState where
  channel : Nat
  output_dir : String
  is_recording : Bool
  recording_process : Option Nat
  recording_file : Option String
  stop_timer_task : Option Nat
  monitor_task : Bool
  recording_start_time : Option Nat
  timers : List TimerRec
  deriving Repr, DecidableEq

/-- Outcome of `subprocess.Popen` for the capture tool (environment input
to `start_recording`): success with a process handle, `FileNotFoundError`
(binary absent), or any other exception. -/
inductive SpawnResult where
  | ok (pid : Nat)
  | notFound
  | otherError
  deriving Repr, DecidableEq

/-- Result of `start_recording`: the returned boolean, whether a new
capture process was spawned, and the controller state afterwards. -/
structure StartOutcome where
  ok : Bool
  spawned : Bool
  state : RecState
  deriving Repr, DecidableEq

/-- Cancellation of the stored stop-timer task done by `start_recording`
when a recording is already active (video_recorder.py lines 96-98): only a
stored, not-yet-done task is cancelled, and only then is the slot cleared. -/
def cancelStoredTimer (s : RecState) : RecState :=
  match s.stop_timer_task with
  | none => s
  | some i =>
    match s.timers.get? i with
    | none => s
    | some t =>
      if timerDone t then s
      else
        { s with timers := s.timers.set i { t with cancelled := true },
                 stop_timer_task := none }

/-- `VideoRecorder.start_recording` (video_recorder.py lines 84-162).
`spawn` is the environment's answer to the `subprocess.Popen` call and
`nowMillis` the current instant. If a recording is already active the
method only cancels a pending stop timer and reports success; otherwise it
computes a fresh output path (line 107, before the spawn), spawns ffmpeg,
and on success marks the recording active, records the start time and
creates the monitor task; on `FileNotFoundError` or any other exception it
returns `False` (the freshly assigned `_recording_file` is left in place,
as in the source). -/
def start_recording (spawn : SpawnResult) (nowMillis : Nat) (s : RecState) :
    StartOutcome :=
  if s.is_recording then
    { ok := true, spawned := false, state := cancelStoredTimer s }
  else
    let s1 := { s with
      recording_file := some (s.output_dir ++ "/" ++ clipFilename s.channel nowMillis) }
    match spawn with
    | SpawnResult.ok pid =>
      { ok := true, spawned := true,
        state := { s1 with
          recording_process := some pid,
          is_recording := true,
          recording_start_time := some nowMillis,
          monitor_task := true } }
    | SpawnResult.notFound => { ok := false, spawned := false, state := s1 }
    | SpawnResult.otherError => { ok := false, spawned := false, state := s1 }

/-- Result of `stop_recording`: the returned `Optional[Path]`, the state of
the output file on disk afterwards (`none` when absent or unlinked), and
the controller state afterwards. -/
structure StopOutcome where
  result : Option String
  fsAfter : Option Nat
  state : RecState
  deriving Repr, DecidableEq

/-- Marking the timer task at a stored index cancelled if it is still
pending, as done by `stop_recording` (video_recorder.py lines 193-198). -/
def cancelTimerAt (idx : Option Nat) (ts : List TimerRec) : List TimerRec :=
  match idx with
  | none => ts
  | some i =>
    match ts.get? i with
    | none => ts
    | some t => if timerDone t then ts else ts.set i { t with cancelled := true }

/-- `VideoRecorder.stop_recording` (video_recorder.py lines 164-318).
`fsFinal` is the filesystem's answer at the final check (lines 299-301):
whether the output file exists and its size. Guard (line 171): if no
recording is active or no process handle is held, return `None` with no
side effect. Otherwise all session fields are reset immediately (lines
184-190), the stored stop-timer and monitor tasks are cancelled (lines
193-206); process termination and the file-stability wait (lines 208-296)
only affect timing; the final check (lines 298-318) returns the path when
the file exists non-empty, unlinks a zero-byte file and returns `None`,
and returns `None` when the file is missing. -/
def stop_recording (fsFinal : Option Nat) (s : RecState) : StopOutcome :=
  if s.is_recording = false ∨ s.recording_process = none then
    { result := none, fsAfter := fsFinal, state := s }
  else
    let recording_file := s.recording_file
    let cleared : RecState := { s with
      is_recording := false,
      recording_file := none,
      recording_process := none,
      recording_start_time := none,
      monitor_task := false,
      stop_timer_task := none,
      timers := cancelTimerAt s.stop_timer_task s.timers }
    match recording_file with
    | some f =>
      match fsFinal with
      | some n =>
        if n > 0 then { result := some f, fsAfter := some n, state := cleared }
        else { result := none, fsAfter := none, state := cleared }
      | none => { result := none, fsAfter := none, state := cleared }
    | none => { result := none, fsAfter := fsFinal, state := cleared }

/-- `VideoRecorder.stop_recording_delayed` (video_recorder.py lines
365-374): cancel the stored timer task if it is still pending (lines
370-371, without clearing the slot), then create a fresh timer task armed
at `nowMillis` and store it (line 374). -/
def stop_recording_delayed (nowMillis : Nat) (s : RecState) : RecState :=
  let s1 :=
    match s.stop_timer_task with
    | none => s
    | some i =>
      match s.timers.get? i with
      | none => s
      | some t =>
        if timerDone t then s
        else { s with timers := s.timers.set i { t with cancelled := true } }
  { s1 with
    timers := s1.timers ++ [{ armTime := nowMillis, cancelled := false, fired := false }],
    stop_timer_task := some s1.timers.length }

/-- Last `n` elements of a list, the source's `stderr_lines[-15:]` slice
(video_recorder.py line 348). -/
def lastLines (n : Nat) (lines : List String) : List String :=
  lines.drop (lines.length - n)

/-- Result of the watchdog's reaction to an observed process exit: the
diagnostic lines it surfaces and the controller state afterwards. -/
structure MonitorOutcome where
  diagnostic : List String
  state : RecState
  deriving Repr, DecidableEq

/-- Body of `VideoRecorder._monitor_ffmpeg` once it observes that the
capture process has exited on its own (video_recorder.py lines 333-359):
for a non-zero exit code it surfaces the last 15 lines of the process's
stderr, then breaks out of the monitoring loop. It assigns to no field of
the controller — the source comment at lines 357-358 defers all cleanup to
`stop_recording`. -/
def monitor_on_process_exit (exitCode : Int) (stderrLines : List String)
    (s : RecState) : MonitorOutcome :=
  { diagnostic := if exitCode = 0 then [] else lastLines 15 stderrLines,
    state := s }

/-- State of one `ReolinkWatcher` relevant to the detection callback
(main.py lines 72-76): the stored detection flag and timestamp, whether a
`VideoRecorder` has been constructed, and its `is_recording` property. -/
structure WatcherState where
  person_detected : Bool
  last_detection_time : Option Nat
  has_recorder : Bool
  recorder_is_recording : Bool
  deriving Repr, DecidableEq

/-- Background jobs enqueued (`asyncio.create_task`) by the detection
callback. -/
inductive WatcherJob where
  | snapshotJob
  | startRecordingJob
  | stopDelayedJob
  deriving Repr, DecidableEq

/-- `ReolinkWatcher.on_person_detection_changed` (main.py lines 245-274).
`readDetected` is the value read from the camera (line 251) and
`nowMillis` the current instant. Returns the new watcher state and the
list of enqueued background jobs. -/
def on_person_detection_changed (readDetected : Bool) (nowMillis : Nat)
    (s : WatcherState) : WatcherState × List WatcherJob :=
  if readDetected ≠ s.person_detected then
    let s1 := { s with
      person_detected := readDetected,
      last_detection_time := some nowMillis }
    if readDetected then
      ((s1),
        (if s.has_recorder ∧ s.recorder_is_recording = false
          then [WatcherJob.snapshotJob] else [])
        ++ (if s.has_recorder then [WatcherJob.startRecordingJob] else []))
    else
      ((s1), if s.has_recorder then [WatcherJob.stopDelayedJob] else [])
  else
    (s, [])

/-- Environment's answer to `self.host_obj.get_snapshot(self.channel)`
(main.py line 148): the call may raise, or return `bytes | None`; bytes are
modelled as a list of byte values. -/
inductive ApiFetch where
  | raised
  | returned (data : Option (List Nat))
  deriving Repr, DecidableEq

/-- Environment's answer to `self._take_snapshot_ffmpeg(filepath)`
(main.py lines 174-243): it returns the filepath, returns `None`, or
raises (caught by the caller, main.py lines 168-172). -/
inductive FallbackOutcome where
  | ok
  | failed
  | raised
  deriving Repr, DecidableEq

/-- Result of `take_snapshot`: the returned `Optional[Path]`, the bytes
written to the snapshot file on the API path (if any), and whether the
ffmpeg single-frame fallback was invoked. -/
structure SnapshotOutcome where
  result : Option String
  apiWrite : Option (List Nat)
  usedFallback : Bool
  deriving Repr, DecidableEq

/-- `ReolinkWatcher.take_snapshot` (main.py lines 132-172). The filepath
is computed first (lines 140-142). On the API path the file is written and
the path returned only under the truthiness test `if snapshot_data:` (line
150), i.e. only when the fetch returned non-`None`, non-empty bytes; when
the fetch raises, or when it returns `None` or empty bytes (the `if` body
is skipped and the `try` block falls through), control reaches the ffmpeg
fallback (line 167); an exception from the fallback is caught and `None`
returned. -/
def take_snapshot (api : ApiFetch) (fb : FallbackOutcome)
    (snapshot_dir : String) (nowMillis : Nat) : SnapshotOutcome :=
  let filepath := snapshot_dir ++ "/" ++ snapshotFilename nowMillis
  let fallbackRun : SnapshotOutcome :=
    match fb with
    | FallbackOutcome.ok =>
      { result := some filepath, apiWrite := none, usedFallback := true }
    | FallbackOutcome.failed =>
      { result := none, apiWrite := none, usedFallback := true }
    | FallbackOutcome.raised =>
      { result := none, apiWrite := none, usedFallback := true }
  match api with
  | ApiFetch.raised => fallbackRun
  | ApiFetch.returned none => fallbackRun
  | ApiFetch.returned (some data) =>
    if data ≠ [] then
      { result := some filepath, apiWrite := some data, usedFallback := false }
    else fallbackRun

/-- Environment's answer to `watcher.initialize()` for one camera
(main.py lines 442, 78-130): the call returns `True`, returns `False`, or
raises (the orchestrator also catches exceptions raised while constructing
the watcher; both are `raised` here). -/
inductive CamSetupOutcome where
  | ok
  | failed
  | raised
  deriving Repr, DecidableEq

/-- One entry of the `cameras` list of the configuration as consumed by
`initialize_cameras` (main.py lines 409-452): its name (absent when the
config entry has no `name` key), its `enabled` flag (defaulted to `True`
at line 410), and the environment's answer to initializing it. -/
structure CameraEntry where
  name : Option String
  enabled : Bool
  outcome : CamSetupOutcome
  deriving Repr, DecidableEq

/-- Environment's answer to `self.load_config()` (main.py line 394):
either the parsed camera list or an exception (missing file, parse
error). -/
inductive ConfigLoad where
  | ok (cameras : List CameraEntry)
  | loadError
  deriving Repr, DecidableEq

/-- The per-camera step of the loop in `initialize_cameras` (main.py lines
420-452): an entry without a name is skipped; otherwise the watcher is
constructed and initialized, and appended to `self.watchers` exactly when
initialization returns `True`; a `False` return or an exception leaves the
list unchanged and the loop continues with the next entry. -/
def camStep (cam : CameraEntry) : Option String :=
  match cam.name with
  | none => none
  | some n =>
    match cam.outcome with
    | CamSetupOutcome.ok => some n
    | CamSetupOutcome.failed => none
    | CamSetupOutcome.raised => none

/-- `MultiCameraManager.initialize_cameras` (main.py lines 386-466),
returning the boolean result and the list of (names of) watchers kept for
monitoring. A config-load exception is caught and yields `False` (lines
463-466); an empty camera list or an all-disabled list yields `False`
(lines 404-414); otherwise each enabled camera is processed by `camStep`
and the method succeeds iff `success_count` — the number of watchers
appended — is non-zero (lines 454-461). -/
def init_cameras (cfg : ConfigLoad) : Bool × List String :=
  match cfg with
  | ConfigLoad.loadError => (false, [])
  | ConfigLoad.ok cams =>
    if cams.isEmpty then (false, [])
    else
      let enabledCams := cams.filter (fun c => c.enabled)
      if enabledCams.isEmpty then (false, [])
      else
        let watchers := enabledCams.filterMap camStep
        (watchers.length != 0, watchers)

/-- Bookkeeping invariant the controller maintains for its timer tasks
(there is one mutable slot `_stop_timer_task`, and every task that leaves
the slot is cancelled first): at most one timer task is pending, and a
pending one is the stored one. -/
def timersWellFormed (s : RecState) : Prop :=
  match s.stop_timer_task with
  | none => pendingCount s.timers = 0
  | some i => pendingCount s.timers = 0 ∨
      ∃ t, s.timers.get? i = some t ∧ timerDone t = false ∧
        pendingCount s.timers = 1

/-- Sample controller state with an active recording and one pending stop
timer armed at 5000ms. -/
def sampleActive : RecState :=
  { channel := 2, output_dir := "clips", is_recording := true,
    recording_process := some 7, recording_file := some "clips/a.mp4",
    stop_timer_task := some 0, monitor_task := true,
    recording_start_time := some 1000,
    timers := [{ armTime := 5000, cancelled := false, fired := false }] }

/-- Sample idle controller state, as after construction
(video_recorder.py lines 44-49). -/
def sampleIdle : RecState :=
  { channel := 0, output_dir := "clips", is_recording := false,
    recording_process := none, recording_file := none,
    stop_timer_task := none, monitor_task := false,
    recording_start_time := none, timers := [] }

/-- Sample watcher state with a constructed recorder that is recording. -/
def sampleWatcher : WatcherState :=
  { person_detected := true, last_detection_time := some 42,
    has_recorder := true, recorder_is_recording := true }

/-- Sample healthy camera entry. -/
def camFront : CameraEntry :=
  { name := some "front", enabled := true, outcome := CamSetupOutcome.ok }

/-- Sample broken camera entry (its capability check fails). -/
def camBack : CameraEntry :=
  { name := some "back", enabled := true, outcome := CamSetupOutcome.failed }

/-- Sample configuration: one healthy camera and one broken camera. -/
def camListSample : List CameraEntry :=
  [camFront, camBack]

/-! Helper lemmas: injectivity of the decimal rendering used in artifact
filenames, string cancellation, and counting of pending timer tasks. -/

theorem toDigitsCore_succ (b f n : Nat) (l : List Char) : Nat.toDigitsCore b (f+1) n l =
    if n / b = 0 then Nat.digitChar (n % b) :: l
    else Nat.toDigitsCore b f (n / b) (Nat.digitChar (n % b) :: l) := rfl

theorem toDigitsCore_append (b : Nat) :
    ∀ (f n : Nat) (l : List Char),
      Nat.toDigitsCore b f n l = Nat.toDigitsCore b f n [] ++ l := by
  intro f
  induction f with
  | zero => intro n l; rfl
  | succ f ih =>
    intro n l
    rw [toDigitsCore_succ, toDigitsCore_succ]
    by_cases h : n / b = 0
    · simp [h]
    · simp only [h, if_false]
      rw [ih (n / b) (Nat.digitChar (n % b) :: l), ih (n / b) [Nat.digitChar (n % b)]]
      simp

theorem toDigitsCore_eq_digits :
    ∀ (f n : Nat), 0 < n → n < f →
      Nat.toDigitsCore 10 f n [] = ((Nat.digits 10 n).map Nat.digitChar).reverse := by
  intro f
  induction f with
  | zero => intro n h0 hf; omega
  | succ f ih =>
    intro n h0 hf
    rw [toDigitsCore_succ, Nat.digits_def' (by norm_num : (1:Nat) < 10) h0]
    by_cases h : n / 10 = 0
    · simp [h]
    · simp only [h, if_false]
      have hlt : n / 10 < n := Nat.div_lt_self h0 (by norm_num)
      rw [toDigitsCore_append, ih (n / 10) (Nat.pos_of_ne_zero h) (by omega)]
      simp

theorem repr_data_pos (n : Nat) (h : 0 < n) :
    (Nat.repr n).data = ((Nat.digits 10 n).map Nat.digitChar).reverse := by
  show Nat.toDigits 10 n = _
  unfold Nat.toDigits
  exact toDigitsCore_eq_digits (n+1) n h (Nat.lt_succ_self n)

theorem digitChar_inj_below : ∀ a < 10, ∀ b < 10,
    Nat.digitChar a = Nat.digitChar b → a = b := by decide

theorem map_digitChar_inj :
    ∀ (l1 l2 : List Nat), (∀ x ∈ l1, x < 10) → (∀ x ∈ l2, x < 10) →
      l1.map Nat.digitChar = l2.map Nat.digitChar → l1 = l2 := by
  intro l1
  induction l1 with
  | nil =>
    intro l2 _ _ h
    cases l2 with
    | nil => rfl
    | cons b t => simp at h
  | cons a t ih =>
    intro l2 h1 h2 h
    cases l2 with
    | nil => simp at h
    | cons b t2 =>
      simp only [List.map_cons, List.cons.injEq] at h
      have ha : a < 10 := h1 a (List.mem_cons_self a t)
      have hb : b < 10 := h2 b (List.mem_cons_self b t2)
      have hab : a = b := digitChar_inj_below a ha b hb h.1
      subst hab
      rw [ih t2 (fun x hx => h1 x (List.mem_cons_of_mem _ hx))
            (fun x hx => h2 x (List.mem_cons_of_mem _ hx)) h.2]

theorem natRepr_injective : Function.Injective Nat.repr := by
  intro m n h
  have hd : (Nat.repr m).data = (Nat.repr n).data := congrArg String.data h
  rcases Nat.eq_zero_or_pos m with hm | hm
  · rcases Nat.eq_zero_or_pos n with hn | hn
    · rw [hm, hn]
    · exfalso
      subst hm
      rw [repr_data_pos n hn] at hd
      have h0 : (Nat.repr 0).data = ['0'] := rfl
      rw [h0] at hd
      have hrev : (Nat.digits 10 n).map Nat.digitChar = ['0'] := by
        have := congrArg List.reverse hd
        simpa using this.symm
      have hdig : Nat.digits 10 n = [0] := by
        apply map_digitChar_inj
        · exact fun x hx => Nat.digits_lt_base (by norm_num) hx
        · intro x hx; simp at hx; omega
        · rw [hrev]; rfl
      have hofd := Nat.ofDigits_digits 10 n
      rw [hdig] at hofd
      simp [Nat.ofDigits] at hofd
      omega
  · rcases Nat.eq_zero_or_pos n with hn | hn
    · exfalso
      subst hn
      rw [repr_data_pos m hm] at hd
      have h0 : (Nat.repr 0).data = ['0'] := rfl
      rw [h0] at hd
      have hrev : (Nat.digits 10 m).map Nat.digitChar = ['0'] := by
        have := congrArg List.reverse hd
        simpa using this
      have hdig : Nat.digits 10 m = [0] := by
        apply map_digitChar_inj
        · exact fun x hx => Nat.digits_lt_base (by norm_num) hx
        · intro x hx; simp at hx; omega
        · rw [hrev]; rfl
      have hofd := Nat.ofDigits_digits 10 m
      rw [hdig] at hofd
      simp [Nat.ofDigits] at hofd
      omega
    · rw [repr_data_pos m hm, repr_data_pos n hn] at hd
      have h2 : (Nat.digits 10 m).map Nat.digitChar
          = (Nat.digits 10 n).map Nat.digitChar := by
        have := congrArg List.reverse hd
        simpa using this
      have hdig := map_digitChar_inj _ _
        (fun x hx => Nat.digits_lt_base (by norm_num) hx)
        (fun x hx => Nat.digits_lt_base (by norm_num) hx) h2
      rw [← Nat.ofDigits_digits 10 m, ← Nat.ofDigits_digits 10 n, hdig]

theorem string_data_inj {a b : String} (h : a.data = b.data) : a = b := by
  cases a; cases b; exact congrArg String.mk h

theorem pendingCount_append_pending (ts : List TimerRec) (t : TimerRec)
    (h : timerDone t = false) :
    pendingCount (ts ++ [t]) = pendingCount ts + 1 := by
  simp [pendingCount, List.countP_append, List.countP_cons, h]

theorem pendingCount_zero_iff (ts : List TimerRec) :
    pendingCount ts = 0 ↔ ∀ t ∈ ts, timerDone t = true := by
  simp [pendingCount, List.countP_eq_zero]

theorem pendingCount_set_cancelled (ts : List TimerRec) :
    ∀ (i : Nat) (t : TimerRec), ts.get? i = some t → timerDone t = false →
      pendingCount (ts.set i { t with cancelled := true }) + 1 = pendingCount ts := by
  induction ts with
  | nil => intro i t h _; simp at h
  | cons a l ih =>
    intro i t h hpend
    cases i with
    | zero =>
      simp only [List.get?] at h
      obtain rfl : a = t := by injection h
      simp only [timerDone] at hpend
      simp [pendingCount, List.countP_cons, timerDone, hpend]
      cases hc : a.cancelled <;> cases hf : a.fired <;> simp_all
    | succ i =>
      simp only [List.get?] at h
      simp only [List.set, pendingCount, List.countP_cons]
      have := ih i t h hpend
      simp only [pendingCount] at this
      omega

/-! Claim theorems. -/

/-- C5: a detection notification in which the value read from the camera
equals the stored detection state performs zero side effects: the watcher
state (detection flag and timestamp) is unchanged and no snapshot,
recording-start or delayed-stop job is enqueued. -/
theorem no_change_notification_no_effects (v : Bool) (now : Nat)
    (s : WatcherState) (h : v = s.person_detected) :
    on_person_detection_changed v now s = (s, []) := by
  simp [on_person_detection_changed, h]

/-- Witness for C5 at a concrete watcher state. -/
theorem no_change_notification_no_effects_witness :
    true = sampleWatcher.person_detected ∧
    on_person_detection_changed true 99 sampleWatcher = (sampleWatcher, []) :=
  ⟨rfl, no_change_notification_no_effects true 99 sampleWatcher rfl⟩

/-- C8: `stop_recording` on an idle controller — `_is_recording` false or
no process handle held — performs no side effects and returns `None`. -/
theorem stop_recording_idle_noop (fs : Option Nat) (s : RecState)
    (h : s.is_recording = false ∨ s.recording_process = none) :
    stop_recording fs s = { result := none, fsAfter := fs, state := s } := by
  unfold stop_recording
  rw [if_pos h]

/-- Witness for C8 at a concrete idle controller. -/
theorem stop_recording_idle_noop_witness :
    (sampleIdle.is_recording = false ∨ sampleIdle.recording_process = none) ∧
    stop_recording (some 3) sampleIdle
      = { result := none, fsAfter := some 3, state := sampleIdle } :=
  ⟨Or.inl rfl, stop_recording_idle_noop (some 3) sampleIdle (Or.inl rfl)⟩

/-- C10: the ffmpeg single-frame fallback of `take_snapshot` runs exactly
when the direct API fetch raises, returns `None`, or returns empty bytes;
and the API path writes a snapshot file only with non-empty data. -/
theorem snapshot_fallback_and_nonempty_write (api : ApiFetch)
    (fb : FallbackOutcome) (dir : String) (now : Nat) :
    ((take_snapshot api fb dir now).usedFallback = true ↔
      api = ApiFetch.raised ∨ api = ApiFetch.returned none ∨
        api = ApiFetch.returned (some [])) ∧
    (∀ d, (take_snapshot api fb dir now).apiWrite = some d → d ≠ []) := by
  rcases api with _ | data
  · cases fb <;> simp [take_snapshot]
  · rcases data with _ | l
    · cases fb <;> simp [take_snapshot]
    · by_cases hl : l = []
      · subst hl; cases fb <;> simp [take_snapshot]
      · simp [take_snapshot, hl]

/-- C3 counterexample: the claim says that when the watchdog observes the
capture process exiting on its own during an active session, the
controller transitions directly to Idle with its recording state cleared
and session fields reset. At the concrete active session `sampleActive`
and a crash with exit code 1, the state after the watchdog's reaction
still has `_is_recording = true` and its process handle and output file
intact — the watchdog clears nothing. -/
theorem watchdog_exit_not_idle_counterexample :
    sampleActive.is_recording = true ∧
    (monitor_on_process_exit 1 ["moov atom not found"] sampleActive).state.is_recording
      = true ∧
    (monitor_on_process_exit 1 ["moov atom not found"] sampleActive).state.recording_process
      = some 7 ∧
    (monitor_on_process_exit 1 ["moov atom not found"] sampleActive).state.recording_file
      = some "clips/a.mp4" :=
  ⟨rfl, rfl, rfl, rfl⟩

/-- C3 amended: when the watchdog observes the capture process exiting on
its own, it surfaces at most the last 15 lines of the process's diagnostic
output and stops monitoring, leaving the controller state entirely
unchanged; the session fields are cleared only by a later
`stop_recording` call. -/
theorem watchdog_exit_preserves_state (e : Int) (ls : List String)
    (s : RecState) :
    (monitor_on_process_exit e ls s).state = s ∧
    (monitor_on_process_exit e ls s).diagnostic.length ≤ 15 ∧
    (monitor_on_process_exit e ls s).diagnostic <:+ ls := by
  refine ⟨rfl, ?_, ?_⟩
  · by_cases h : e = 0
    · simp [monitor_on_process_exit, h]
    · simp [monitor_on_process_exit, lastLines, h, List.length_drop]
      omega
  · by_cases h : e = 0
    · simp only [monitor_on_process_exit, if_pos h]
      exact List.nil_suffix
    · simp only [monitor_on_process_exit, if_neg h]
      exact List.drop_suffix _ ls

/-- C4 counterexample: the claim says any two distinct recording starts
(and any two distinct snapshot attempts) of one camera produce distinct
filenames, for all event sequences including rapid repeated detections.
The timestamps have second resolution: starts at the distinct instants
100ms and 900ms fall in the same second and yield identical clip and
snapshot filenames. -/
theorem same_second_filename_collision :
    (100 : Nat) ≠ 900 ∧ clipFilename 2 100 = clipFilename 2 900 ∧
    snapshotFilename 100 = snapshotFilename 900 :=
  ⟨by decide, rfl, rfl⟩

/-- C4 amended: for a given camera, two recording starts (resp. snapshot
attempts) produce distinct filenames provided they occur in distinct
seconds, i.e. whenever their second-resolution timestamps differ. -/
theorem filenames_unique_across_seconds (c t1 t2 : Nat)
    (h : secondsStamp t1 ≠ secondsStamp t2) :
    clipFilename c t1 ≠ clipFilename c t2 ∧
    snapshotFilename t1 ≠ snapshotFilename t2 := by
  constructor
  · intro heq
    apply h
    have hd := congrArg String.data heq
    simp only [clipFilename, String.data_append, List.append_assoc] at hd
    have h1 := List.append_cancel_left hd
    have h2 := List.append_cancel_right h1
    exact natRepr_injective (string_data_inj h2)
  · intro heq
    apply h
    have hd := congrArg String.data heq
    simp only [snapshotFilename, String.data_append, List.append_assoc] at hd
    have h1 := List.append_cancel_left hd
    have h2 := List.append_cancel_right h1
    exact natRepr_injective (string_data_inj h2)

/-- Witness for the amended C4 at concrete instants in distinct seconds. -/
theorem filenames_unique_across_seconds_witness :
    secondsStamp 1000 ≠ secondsStamp 2500 ∧
    (clipFilename 2 1000 ≠ clipFilename 2 2500 ∧
      snapshotFilename 1000 ≠ snapshotFilename 2500) :=
  ⟨by decide, filenames_unique_across_seconds 2 1000 2500 (by decide)⟩

/-- Cancelling the stored timer never touches the session fields or the
number of timer tasks. -/
theorem cancelStoredTimer_fields (s : RecState) :
    (cancelStoredTimer s).is_recording = s.is_recording ∧
    (cancelStoredTimer s).recording_process = s.recording_process ∧
    (cancelStoredTimer s).recording_file = s.recording_file ∧
    (cancelStoredTimer s).recording_start_time = s.recording_start_time ∧
    (cancelStoredTimer s).monitor_task = s.monitor_task ∧
    (cancelStoredTimer s).timers.length = s.timers.length := by
  unfold cancelStoredTimer
  split
  · exact ⟨rfl, rfl, rfl, rfl, rfl, rfl⟩
  · split
    · exact ⟨rfl, rfl, rfl, rfl, rfl, rfl⟩
    · split
      · exact ⟨rfl, rfl, rfl, rfl, rfl, rfl⟩
      · exact ⟨rfl, rfl, rfl, rfl, rfl, by simp⟩

/-- Cancelling the stored timer, when it is pending, clears the slot and
marks exactly that timer cancelled. -/
theorem cancelStoredTimer_pending (s : RecState) (i : Nat) (t : TimerRec)
    (hst : s.stop_timer_task = some i) (hget : s.timers.get? i = some t)
    (hpend : timerDone t = false) :
    (cancelStoredTimer s).stop_timer_task = none ∧
    (cancelStoredTimer s).timers.get? i = some { t with cancelled := true } := by
  simp only [cancelStoredTimer, hst, hget, hpend]
  refine ⟨rfl, ?_⟩
  show (s.timers.set i { t with cancelled := true }).get? i = _
  rw [List.get?_set_eq, hget]
  rfl

/-- C1: calling `start_recording` while `_is_recording` is already true
spawns no second capture process and creates no new output file; it
returns success and leaves the existing session — process handle, output
file, start time — unchanged, and it cancels a pending stop-timer task,
clearing the stored slot. -/
theorem start_while_recording_extends (spawn : SpawnResult) (now : Nat)
    (s : RecState) (h : s.is_recording = true) :
    (start_recording spawn now s).ok = true ∧
    (start_recording spawn now s).spawned = false ∧
    (start_recording spawn now s).state.recording_process = s.recording_process ∧
    (start_recording spawn now s).state.recording_file = s.recording_file ∧
    (start_recording spawn now s).state.recording_start_time
      = s.recording_start_time ∧
    (start_recording spawn now s).state.is_recording = true ∧
    (start_recording spawn now s).state.timers.length = s.timers.length ∧
    (∀ i t, s.stop_timer_task = some i → s.timers.get? i = some t →
      timerDone t = false →
      (start_recording spawn now s).state.stop_timer_task = none ∧
      (start_recording spawn now s).state.timers.get? i
        = some { t with cancelled := true }) := by
  have hf := cancelStoredTimer_fields s
  unfold start_recording
  rw [if_pos h]
  exact ⟨rfl, rfl, hf.2.1, hf.2.2.1, hf.2.2.2.1, hf.1.trans h, hf.2.2.2.2.2,
    fun i t hst hget hpend => cancelStoredTimer_pending s i t hst hget hpend⟩

/-- Witness for C1: a second detection onset on the concrete active
session `sampleActive` (with its pending stop timer at index 0). -/
theorem start_while_recording_extends_witness :
    sampleActive.is_recording = true ∧
    (start_recording (SpawnResult.ok 9) 8000 sampleActive).ok = true ∧
    (start_recording (SpawnResult.ok 9) 8000 sampleActive).spawned = false ∧
    (start_recording (SpawnResult.ok 9) 8000 sampleActive).state.recording_process
      = sampleActive.recording_process ∧
    (start_recording (SpawnResult.ok 9) 8000 sampleActive).state.stop_timer_task
      = none :=
  have h := start_while_recording_extends (SpawnResult.ok 9) 8000 sampleActive rfl
  ⟨rfl, h.1, h.2.1, h.2.2.1,
    (h.2.2.2.2.2.2.2 0 { armTime := 5000, cancelled := false, fired := false }
      rfl rfl rfl).1⟩

/-- C7: when spawning the capture tool fails with `FileNotFoundError`,
`start_recording` returns `False`, the controller stays idle — not
recording, no process handle, no start time, hence no session — and a
subsequent detection onset can retry `start_recording` successfully. -/
theorem spawn_failure_returns_idle (now : Nat) (s : RecState)
    (h1 : s.is_recording = false) (h2 : s.recording_process = none)
    (h3 : s.recording_start_time = none) :
    (start_recording SpawnResult.notFound now s).ok = false ∧
    (start_recording SpawnResult.notFound now s).spawned = false ∧
    (start_recording SpawnResult.notFound now s).state.is_recording = false ∧
    (start_recording SpawnResult.notFound now s).state.recording_process = none ∧
    (start_recording SpawnResult.notFound now s).state.recording_start_time
      = none ∧
    (∀ pid now2,
      (start_recording (SpawnResult.ok pid) now2
        (start_recording SpawnResult.notFound now s).state).ok = true ∧
      (start_recording (SpawnResult.ok pid) now2
        (start_recording SpawnResult.notFound now s).state).spawned = true) := by
  unfold start_recording
  rw [if_neg (by simp [h1])]
  refine ⟨rfl, rfl, h1, h2, h3, ?_⟩
  intro pid now2
  rw [if_neg (by simp [h1])]
  exact ⟨rfl, rfl⟩

/-- Witness for C7: spawn failure on the concrete idle controller, then a
successful retry. -/
theorem spawn_failure_returns_idle_witness :
    (sampleIdle.is_recording = false ∧ sampleIdle.recording_process = none ∧
      sampleIdle.recording_start_time = none) ∧
    (start_recording SpawnResult.notFound 1234 sampleIdle).ok = false ∧
    (start_recording SpawnResult.notFound 1234 sampleIdle).state.is_recording
      = false ∧
    (start_recording (SpawnResult.ok 5) 9999
      (start_recording SpawnResult.notFound 1234 sampleIdle).state).ok = true :=
  have h := spawn_failure_returns_idle 1234 sampleIdle rfl rfl rfl
  ⟨⟨rfl, rfl, rfl⟩, h.1, h.2.2.1, (h.2.2.2.2.2 5 9999).1⟩

/-- C2: for a session on which the stop protocol runs to completion (an
active recording with a process handle and an output path), the result of
`stop_recording` is the output path exactly when the file exists on disk
with size at least 1 byte at the final check; a zero-byte file is unlinked
and `None` returned; a missing file yields `None`. -/
theorem stop_protocol_final_check (fs : Option Nat) (s : RecState) (p : Nat)
    (f : String) (hrec : s.is_recording = true)
    (hp : s.recording_process = some p) (hf : s.recording_file = some f) :
    ((stop_recording fs s).result = some f ↔ ∃ n, fs = some n ∧ 1 ≤ n) ∧
    ((stop_recording fs s).result = none ↔ fs = none ∨ fs = some 0) ∧
    (fs = some 0 → (stop_recording fs s).fsAfter = none) ∧
    (fs = none → (stop_recording fs s).fsAfter = none) := by
  rcases fs with _ | n
  · simp [stop_recording, hrec, hp, hf]
  · rcases Nat.eq_zero_or_pos n with h0 | h0
    · subst h0
      simp [stop_recording, hrec, hp, hf]
    · simp [stop_recording, hrec, hp, hf, h0]
      omega

/-- Witness for C2 on the concrete active session, with the output file
present at 5 bytes. -/
theorem stop_protocol_final_check_witness :
    (sampleActive.is_recording = true ∧
      sampleActive.recording_process = some 7 ∧
      sampleActive.recording_file = some "clips/a.mp4") ∧
    (stop_recording (some 5) sampleActive).result = some "clips/a.mp4" :=
  have h := stop_protocol_final_check (some 5) sampleActive 7 "clips/a.mp4"
    rfl rfl rfl
  ⟨⟨rfl, rfl, rfl⟩, h.1.mpr ⟨5, rfl, by omega⟩⟩

/-- Shape of the timer log after `stop_recording_delayed`: the old tasks,
all done, followed by the freshly armed task, which is the stored one. -/
theorem delayed_stop_timers_split (now : Nat) (s : RecState)
    (h : timersWellFormed s) :
    ∃ ts0, (stop_recording_delayed now s).timers
      = ts0 ++ [{ armTime := now, cancelled := false, fired := false }]
      ∧ pendingCount ts0 = 0
      ∧ (stop_recording_delayed now s).stop_timer_task = some ts0.length := by
  unfold timersWellFormed at h
  cases hst : s.stop_timer_task with
  | none =>
    rw [hst] at h
    exact ⟨s.timers, by simp [stop_recording_delayed, hst], h,
      by simp [stop_recording_delayed, hst]⟩
  | some i =>
    rw [hst] at h
    cases hget : s.timers.get? i with
    | none =>
      have hg2 : s.timers[i]? = none := by
        rw [← List.get?_eq_getElem?]; exact hget
      refine ⟨s.timers, by simp [stop_recording_delayed, hst, hg2], ?_,
        by simp [stop_recording_delayed, hst, hg2]⟩
      rcases h with h | ⟨t, hg, _, _⟩
      · exact h
      · rw [hget] at hg; cases hg
    | some t =>
      have hg2 : s.timers[i]? = some t := by
        rw [← List.get?_eq_getElem?]; exact hget
      cases hb : timerDone t with
      | true =>
        refine ⟨s.timers, by simp [stop_recording_delayed, hst, hg2, hb], ?_,
          by simp [stop_recording_delayed, hst, hg2, hb]⟩
        rcases h with h | ⟨t2, hg, hpend, _⟩
        · exact h
        · rw [hget] at hg
          injection hg with hg
          subst hg
          rw [hb] at hpend
          cases hpend
      | false =>
        refine ⟨s.timers.set i { t with cancelled := true },
          by simp [stop_recording_delayed, hst, hg2, hb], ?_,
          by simp [stop_recording_delayed, hst, hg2, hb]⟩
        rcases h with h | ⟨t2, hg, hpend, hcount⟩
        · exfalso
          have hmem : t ∈ s.timers := List.get?_mem hget
          have := (pendingCount_zero_iff s.timers).mp h t hmem
          rw [this] at hb
          cases hb
        · have := pendingCount_set_cancelled s.timers i t hget hb
          omega

/-- C6: every call to `stop_recording_delayed` on a controller whose timer
bookkeeping is intact leaves exactly one pending stop-timer task (the
previously pending one, if any, is cancelled first — two stop timers are
never concurrently pending), and the one pending timer was armed at the
call instant and invokes `stop_recording` only a full
`post_detection_duration` later, never before `now + duration`. -/
theorem delayed_stop_exactly_one_timer (dur now : Nat) (s : RecState)
    (h : timersWellFormed s) :
    pendingCount (stop_recording_delayed now s).timers = 1 ∧
    (∀ t ∈ (stop_recording_delayed now s).timers, timerDone t = false →
      t.armTime = now ∧ stopInvocationTime dur t = now + dur ∧
      now + dur ≤ stopInvocationTime dur t) := by
  obtain ⟨ts0, heq, hzero, -⟩ := delayed_stop_timers_split now s h
  constructor
  · rw [heq, pendingCount_append_pending ts0
      { armTime := now, cancelled := false, fired := false } rfl, hzero]
  · intro t hmem hpend
    rw [heq] at hmem
    rcases List.mem_append.mp hmem with hin | hin
    · exfalso
      have := (pendingCount_zero_iff ts0).mp hzero t hin
      rw [this] at hpend
      cases hpend
    · have ht : t = { armTime := now, cancelled := false, fired := false } := by
        simpa using hin
      subst ht
      exact ⟨rfl, rfl, Nat.le_refl _⟩

/-- Witness for C6 on the concrete active session with an already pending
stop timer. -/
theorem delayed_stop_exactly_one_timer_witness :
    timersWellFormed sampleActive ∧
    pendingCount (stop_recording_delayed 8000 sampleActive).timers = 1 :=
  have hwf : timersWellFormed sampleActive :=
    Or.inr ⟨{ armTime := 5000, cancelled := false, fired := false },
      rfl, rfl, rfl⟩
  ⟨hwf, (delayed_stop_exactly_one_timer 15000 8000 sampleActive hwf).1⟩

/-- The per-camera loop step appends a name exactly for a named entry
whose session initialization returned `True`. -/
theorem camStep_eq_some (c : CameraEntry) (nm : String) :
    camStep c = some nm ↔
      c.name = some nm ∧ c.outcome = CamSetupOutcome.ok := by
  cases hc : c.name <;> cases ho : c.outcome <;> simp [camStep, hc, ho]

/-- The watcher list built by `init_cameras` in all configuration cases:
the empty camera list and the all-disabled list yield an empty watcher
list, which coincides with the loop's filterMap on those inputs. -/
theorem init_cameras_snd_eq (cams : List CameraEntry) :
    (init_cameras (ConfigLoad.ok cams)).snd
      = (cams.filter fun c => c.enabled).filterMap camStep := by
  simp only [init_cameras]
  by_cases h1 : cams.isEmpty = true
  · rw [if_pos h1]
    rw [List.isEmpty_iff] at h1
    subst h1
    rfl
  · rw [if_neg h1]
    by_cases h2 : (cams.filter fun c => c.enabled).isEmpty = true
    · rw [if_pos h2]
      rw [List.isEmpty_iff] at h2
      rw [h2]
      rfl
    · rw [if_neg h2]

/-- Membership in the watcher list built by `init_cameras`. -/
theorem init_cameras_mem_watchers (cams : List CameraEntry) (nm : String) :
    nm ∈ (init_cameras (ConfigLoad.ok cams)).snd ↔
      ∃ c ∈ cams, c.enabled = true ∧ c.name = some nm ∧
        c.outcome = CamSetupOutcome.ok := by
  rw [init_cameras_snd_eq]
  simp only [List.mem_filterMap, List.mem_filter, camStep_eq_some]
  constructor
  · rintro ⟨c, ⟨hc, hen⟩, hname, ho⟩
    exact ⟨c, hc, hen, hname, ho⟩
  · rintro ⟨c, hc, hen, hname, ho⟩
    exact ⟨c, ⟨hc, hen⟩, hname, ho⟩

/-- `init_cameras` reports success exactly when the watcher list is
non-empty. -/
theorem init_cameras_true_iff (cams : List CameraEntry) :
    (init_cameras (ConfigLoad.ok cams)).fst = true ↔
      (init_cameras (ConfigLoad.ok cams)).snd ≠ [] := by
  cases h1 : cams.isEmpty with
  | true =>
    rw [List.isEmpty_iff] at h1
    subst h1
    simp [init_cameras]
  | false =>
    cases h2 : (cams.filter fun c => c.enabled).isEmpty with
    | true => simp [init_cameras, h1, h2]
    | false =>
      simp [init_cameras, h1, h2, bne_iff_ne, List.length_eq_zero]

/-- C9: `initialize_cameras` returns `True` iff at least one enabled,
named camera initializes successfully; a camera whose initialization
returns `False` or raises is excluded from the watcher list and does not
prevent the remaining cameras from being kept; a configuration-load
failure yields `False`. -/
theorem init_cameras_partial_success (cams : List CameraEntry) :
    ((init_cameras (ConfigLoad.ok cams)).fst = true ↔
      ∃ c ∈ cams, c.enabled = true ∧ (∃ nm, c.name = some nm) ∧
        c.outcome = CamSetupOutcome.ok) ∧
    (∀ nm, nm ∈ (init_cameras (ConfigLoad.ok cams)).snd ↔
      ∃ c ∈ cams, c.enabled = true ∧ c.name = some nm ∧
        c.outcome = CamSetupOutcome.ok) ∧
    (init_cameras ConfigLoad.loadError).fst = false := by
  refine ⟨?_, fun nm => init_cameras_mem_watchers cams nm, rfl⟩
  rw [init_cameras_true_iff]
  constructor
  · intro hne
    obtain ⟨nm, hnm⟩ := List.exists_mem_of_ne_nil _ hne
    obtain ⟨c, hc, hen, hname, ho⟩ :=
      (init_cameras_mem_watchers cams nm).mp hnm
    exact ⟨c, hc, hen, ⟨nm, hname⟩, ho⟩
  · rintro ⟨c, hc, hen, ⟨nm, hname⟩, ho⟩ hnil
    have hm := (init_cameras_mem_watchers cams nm).mpr ⟨c, hc, hen, hname, ho⟩
    rw [hnil] at hm
    simp at hm

/-- Witness for the amended C3 at a concrete crash observation. -/
theorem watchdog_exit_preserves_state_witness :
    (monitor_on_process_exit 1 ["e1", "e2"] sampleActive).state = sampleActive ∧
    (monitor_on_process_exit 1 ["e1", "e2"] sampleActive).diagnostic.length ≤ 15 ∧
    (monitor_on_process_exit 1 ["e1", "e2"] sampleActive).diagnostic
      <:+ ["e1", "e2"] :=
  watchdog_exit_preserves_state 1 ["e1", "e2"] sampleActive

/-- Witness for C9: two cameras, one broken, yield partial success with
exactly the healthy camera kept. -/
theorem init_cameras_partial_success_witness :
    (init_cameras (ConfigLoad.ok camListSample)).fst = true ∧
    "front" ∈ (init_cameras (ConfigLoad.ok camListSample)).snd :=
  have h := init_cameras_partial_success camListSample
  ⟨h.1.mpr ⟨camFront, by simp [camListSample], rfl, ⟨"front", rfl⟩, rfl⟩,
    (h.2.1 "front").mpr ⟨camFront, by simp [camListSample], rfl, rfl, rfl⟩⟩

/-- Witness for C10 at a concrete empty-bytes API result. -/
theorem snapshot_fallback_and_nonempty_write_witness :
    (take_snapshot (ApiFetch.returned (some [])) FallbackOutcome.ok
      "snapshots" 0).usedFallback = true :=
  (snapshot_fallback_and_nonempty_write (ApiFetch.returned (some []))
    FallbackOutcome.ok "snapshots" 0).1.mpr (Or.inr (Or.inr rfl))

/-! Robustness of the timer bookkeeping invariant used by C6: it holds for
a fresh controller and is preserved by every controller operation, so it
is an invariant of all reachable controller states. -/

theorem timersWellFormed_fresh : timersWellFormed sampleIdle := rfl

theorem timersWellFormed_cancelStored (s : RecState)
    (h : timersWellFormed s) : timersWellFormed (cancelStoredTimer s) := by
  unfold cancelStoredTimer
  split
  · exact h
  next i hst =>
    split
    · exact h
    next t hget =>
      split
      · exact h
      next hd =>
        show pendingCount (s.timers.set i { t with cancelled := true }) = 0
        unfold timersWellFormed at h
        rw [hst] at h
        have hb : timerDone t = false := by
          cases hbb : timerDone t
          · rfl
          · exact absurd hbb hd
        rcases h with h | ⟨t2, hg, hpend, hcount⟩
        · exfalso
          have hmem : t ∈ s.timers := List.get?_mem hget
          have := (pendingCount_zero_iff s.timers).mp h t hmem
          rw [this] at hb
          cases hb
        · have := pendingCount_set_cancelled s.timers i t hget hb
          omega

theorem timersWellFormed_start (spawn : SpawnResult) (now : Nat)
    (s : RecState) (h : timersWellFormed s) :
    timersWellFormed (start_recording spawn now s).state := by
  unfold start_recording
  by_cases hrec : s.is_recording = true
  · rw [if_pos hrec]
    exact timersWellFormed_cancelStored s h
  · rw [if_neg hrec]
    cases spawn <;> exact h

theorem timersWellFormed_delayed (now : Nat) (s : RecState)
    (h : timersWellFormed s) :
    timersWellFormed (stop_recording_delayed now s) := by
  obtain ⟨ts0, heq, hzero, hslot⟩ := delayed_stop_timers_split now s h
  simp only [timersWellFormed, hslot]
  right
  refine ⟨{ armTime := now, cancelled := false, fired := false }, ?_, rfl, ?_⟩
  · rw [heq]
    exact List.get?_concat_length ts0 _
  · rw [heq, pendingCount_append_pending ts0
      { armTime := now, cancelled := false, fired := false } rfl, hzero]

theorem pendingCount_cancelTimerAt (s : RecState) (h : timersWellFormed s) :
    pendingCount (cancelTimerAt s.stop_timer_task s.timers) = 0 := by
  unfold timersWellFormed at h
  cases hst : s.stop_timer_task with
  | none =>
    rw [hst] at h
    exact h
  | some i =>
    rw [hst] at h
    simp only [cancelTimerAt]
    cases hget : s.timers.get? i with
    | none =>
      rcases h with h | ⟨t, hg, _, _⟩
      · exact h
      · rw [hget] at hg; cases hg
    | some t =>
      show pendingCount (if timerDone t = true then s.timers
        else s.timers.set i { t with cancelled := true }) = 0
      cases hb : timerDone t with
      | true =>
        rw [if_pos rfl]
        rcases h with h | ⟨t2, hg, hpend, _⟩
        · exact h
        · rw [hget] at hg
          injection hg with hg
          subst hg
          rw [hb] at hpend
          cases hpend
      | false =>
        rw [if_neg (by simp)]
        rcases h with h | ⟨t2, hg, hpend, hcount⟩
        · exfalso
          have hmem : t ∈ s.timers := List.get?_mem hget
          have := (pendingCount_zero_iff s.timers).mp h t hmem
          rw [this] at hb
          cases hb
        · have := pendingCount_set_cancelled s.timers i t hget hb
          omega

theorem timersWellFormed_stop (fs : Option Nat) (s : RecState)
    (h : timersWellFormed s) :
    timersWellFormed (stop_recording fs s).state := by
  have hwf := pendingCount_cancelTimerAt s h
  unfold stop_recording
  by_cases hg : s.is_recording = false ∨ s.recording_process = none
  · rw [if_pos hg]
    exact h
  · rw [if_neg hg]
    dsimp only
    split
    next f =>
      split
      next n =>
        split
        · exact hwf
        · exact hwf
      next => exact hwf
    next => exact hwf

end ReolinkModel
